import Mathlib

/-!
Verification development for the nf-snowflake log-relay scripts
(`log_server.py`, `websocket_log_server.py`, `pty_wrapper.py`,
`nextflow_runner.py`).  The Python sources are shallowly embedded: file
contents are lists of byte values (`List Nat`), the asynchronous loops
become explicit step functions on small state records, and the out-of-band
inputs (current file contents, sentinel-file presence, connection health)
are passed as explicit parameters of each step.
-/

/-! ## Python `str.strip` and `int()` (used on the exit-code sentinel) -/

/-- ASCII whitespace recognised by Python's `str.strip()` (the sentinel
contents are ASCII, so the Unicode cases of `strip` are not needed). -/
def pyIsSpace (c : Char) : Bool :=
  c == ' ' || c == '\t' || c == '\n' || c == '\r' || c == '\x0b' || c == '\x0c'

/-- Python `s.strip()` on a character list: drop whitespace at both ends. -/
def pyStrip (s : List Char) : List Char :=
  ((s.dropWhile pyIsSpace).reverse.dropWhile pyIsSpace).reverse

/-- Numeric value of a decimal digit character. -/
def digitVal (c : Char) : Nat := c.toNat - 48

/-- Continuation of Python decimal-literal parsing after the first digit:
further digits, with a single underscore allowed between two digits
(as accepted by `int()` since Python 3.6). -/
def pyDigitsCont : List Char → Nat → Option Nat
  | [], acc => some acc
  | c :: rest, acc =>
    if c.isDigit then pyDigitsCont rest (acc * 10 + digitVal c)
    else if c = '_' then
      match rest with
      | [] => none
      | d :: rest2 =>
        if d.isDigit then pyDigitsCont rest2 (acc * 10 + digitVal d) else none
    else none

/-- Python decimal-literal parsing: at least one digit, then `pyDigitsCont`. -/
def pyUnsignedDigits : List Char → Option Nat
  | [] => none
  | c :: rest => if c.isDigit then pyDigitsCont rest (digitVal c) else none

/-- Python `int()` on an already stripped character list: optional sign
followed by a decimal literal; anything else raises `ValueError`,
modelled as `none`. -/
def pyIntChars : List Char → Option Int
  | [] => none
  | '+' :: rest => (pyUnsignedDigits rest).map Int.ofNat
  | '-' :: rest => (pyUnsignedDigits rest).map (fun n => -(Int.ofNat n))
  | c :: rest =>
    if c.isDigit then (pyDigitsCont rest (digitVal c)).map Int.ofNat else none

/-- Model of Python `int(s.strip())` as used on the sentinel file contents
in both servers (`int(f.read().strip())`). -/
def pyInt (s : String) : Option Int := pyIntChars (pyStrip s.data)

/-! ## Byte-level file reading primitives

The log file is a byte list.  `log_server.py` opens it in binary mode and
uses `f.readline()` (reads up to and including the next `\n`, byte 10);
`websocket_log_server.py` uses `f.read(4096)` from a tracked position. -/

/-- Length of the unit returned by Python's binary `readline()` on the
remaining bytes: up to and including the first newline byte 10, or all
remaining bytes when no newline is present. -/
def readlineLen (rest : List Nat) : Nat :=
  match rest.findIdx? (fun b => b == 10) with
  | some i => i + 1
  | none => rest.length

/-- Python binary `f.readline()` at offset `pos` of `content`. -/
def readlineFrom (content : List Nat) (pos : Nat) : List Nat :=
  (content.drop pos).take (readlineLen (content.drop pos))

/-- Python `line_str.rstrip(chr(10) + chr(13))` at the byte level: remove
every trailing newline (10) or carriage-return (13) byte. -/
def rstripNlCr (l : List Nat) : List Nat :=
  (l.reverse.dropWhile (fun b => b == 10 || b == 13)).reverse

theorem readlineLen_pos (rest : List Nat) (h : rest ≠ []) : 0 < readlineLen rest := by
  unfold readlineLen
  cases hf : rest.findIdx? (fun b => b == 10) with
  | some i => exact Nat.succ_pos i
  | none => exact List.length_pos.mpr h

theorem readlineFrom_eq_nil_iff (content : List Nat) (pos : Nat) :
    readlineFrom content pos = [] ↔ content.drop pos = [] := by
  unfold readlineFrom
  constructor
  · intro h
    by_contra hne
    rcases List.take_eq_nil_iff.mp h with h0 | h0
    · exact absurd h0 (Nat.pos_iff_ne_zero.mp (readlineLen_pos _ hne))
    · exact hne h0
  · intro h
    rw [h]
    rfl

/-- Taking a prefix and then dropping exactly that prefix's length
recovers the whole list. -/
theorem take_append_drop_length (k : Nat) (l : List Nat) :
    l.take k ++ l.drop (l.take k).length = l := by
  rw [List.length_take k l]
  rcases Nat.le_total k l.length with h | h
  · rw [Nat.min_eq_left h, List.take_append_drop]
  · rw [Nat.min_eq_right h, List.drop_length l, List.take_of_length_le h, List.append_nil]

/-- Successive raw lines read by the `log_server.py` tail loop from offset
`pos`: the loop calls `f.readline()` and advances by the bytes read, until
a read returns no data. -/
def linesFromRaw (content : List Nat) (pos : Nat) : List (List Nat) :=
  if h : readlineFrom content pos = [] then []
  else readlineFrom content pos ::
    linesFromRaw content (pos + (readlineFrom content pos).length)
termination_by content.length - pos
decreasing_by
  have h1 : content.drop pos ≠ [] := fun hh => h ((readlineFrom_eq_nil_iff content pos).mpr hh)
  have h2 : pos < content.length := by
    by_contra hle
    exact h1 (List.drop_eq_nil_of_le (by omega))
  have h3 : 0 < (readlineFrom content pos).length := List.length_pos.mpr h
  omega

/-- Output payloads emitted by the `log_server.py` tail loop while draining
the file from offset `pos`: each line is sent through
`send_message("output", line_str.rstrip(chr(10) + chr(13)))`. -/
def tailEmitAll (content : List Nat) (pos : Nat) : List (List Nat) :=
  if h : readlineFrom content pos = [] then []
  else rstripNlCr (readlineFrom content pos) ::
    tailEmitAll content (pos + (readlineFrom content pos).length)
termination_by content.length - pos
decreasing_by
  have h1 : content.drop pos ≠ [] := fun hh => h ((readlineFrom_eq_nil_iff content pos).mpr hh)
  have h2 : pos < content.length := by
    by_contra hle
    exact h1 (List.drop_eq_nil_of_le (by omega))
  have h3 : 0 < (readlineFrom content pos).length := List.length_pos.mpr h
  omega

/-- Successive chunks read by the `websocket_log_server.py` stream loop
from offset `pos`: the loop calls `f.read(4096)` and advances `position`
by `f.tell()`, until a read returns no data. -/
def chunksFrom (content : List Nat) (pos : Nat) : List (List Nat) :=
  if h : (content.drop pos).take 4096 = [] then []
  else (content.drop pos).take 4096 ::
    chunksFrom content (pos + ((content.drop pos).take 4096).length)
termination_by content.length - pos
decreasing_by
  have h1 : content.drop pos ≠ [] := fun hh => h (by rw [hh]; rfl)
  have h2 : pos < content.length := by
    by_contra hle
    exact h1 (List.drop_eq_nil_of_le (by omega))
  have h3 : 0 < ((content.drop pos).take 4096).length := List.length_pos.mpr h
  omega

theorem tailEmitAll_eq_map (content : List Nat) (pos : Nat) :
    tailEmitAll content pos = (linesFromRaw content pos).map rstripNlCr := by
  rw [tailEmitAll, linesFromRaw]
  by_cases h : readlineFrom content pos = []
  · rw [dif_pos h, dif_pos h]
    rfl
  · rw [dif_neg h, dif_neg h, List.map_cons,
      tailEmitAll_eq_map content (pos + (readlineFrom content pos).length)]
termination_by content.length - pos
decreasing_by
  have h1 : content.drop pos ≠ [] := fun hh => h ((readlineFrom_eq_nil_iff content pos).mpr hh)
  have h2 : pos < content.length := by
    by_contra hle
    exact h1 (List.drop_eq_nil_of_le (by omega))
  have h3 : 0 < (readlineFrom content pos).length := List.length_pos.mpr h
  omega

theorem linesFromRaw_flatten (content : List Nat) (pos : Nat) :
    (linesFromRaw content pos).flatten = content.drop pos := by
  rw [linesFromRaw]
  by_cases h : readlineFrom content pos = []
  · rw [dif_pos h]
    exact ((readlineFrom_eq_nil_iff content pos).mp h).symm
  · rw [dif_neg h, List.flatten_cons,
      linesFromRaw_flatten content (pos + (readlineFrom content pos).length),
      ← List.drop_drop]
    simp only [readlineFrom]
    exact take_append_drop_length _ _
termination_by content.length - pos
decreasing_by
  have h1 : content.drop pos ≠ [] := fun hh => h ((readlineFrom_eq_nil_iff content pos).mpr hh)
  have h2 : pos < content.length := by
    by_contra hle
    exact h1 (List.drop_eq_nil_of_le (by omega))
  have h3 : 0 < (readlineFrom content pos).length := List.length_pos.mpr h
  omega

theorem chunksFrom_flatten (content : List Nat) (pos : Nat) :
    (chunksFrom content pos).flatten = content.drop pos := by
  rw [chunksFrom]
  by_cases h : (content.drop pos).take 4096 = []
  · rw [dif_pos h]
    rcases List.take_eq_nil_iff.mp h with h0 | h0
    · exact absurd h0 (by omega)
    · exact h0.symm
  · rw [dif_neg h, List.flatten_cons,
      chunksFrom_flatten content (pos + ((content.drop pos).take 4096).length),
      ← List.drop_drop]
    exact take_append_drop_length 4096 _
termination_by content.length - pos
decreasing_by
  have h1 : content.drop pos ≠ [] := fun hh => h (by rw [hh]; rfl)
  have h2 : pos < content.length := by
    by_contra hle
    exact h1 (List.drop_eq_nil_of_le (by omega))
  have h3 : 0 < ((content.drop pos).take 4096).length := List.length_pos.mpr h
  omega

/-! ## Messages and the session gate

Both servers keep a single `client_websocket` slot.  `handle_websocket`
rejects a second connection with close message `"Server busy"` while the
slot is occupied; the slot is cleared on client disconnect and on a send
failure.  Close codes differ: `log_server.py` passes
`aiohttp.WSMsgType.CLOSE` (value 8), `websocket_log_server.py` passes
`aiohttp.WSCloseCode.TRY_AGAIN_LATER` (value 1013). -/

/-- Kinds of the JSON messages sent to the client (`type` field). -/
inductive MsgType
  | output
  | statusMsg
  | errorMsg
deriving DecidableEq

/-- One JSON message: `type`, `data` (payload bytes before lossy UTF-8
decoding), `timestamp`, and the optional kind-specific keys used by the
two servers (`none` models an absent key). -/
structure Message where
  mtype : MsgType
  data : List Nat
  timestamp : Int
  statusVal : Option String := none
  exitCode : Option Int := none
  linesSent : Option Nat := none
deriving DecidableEq

/-- Clock sources available to `send_message`: `time.time()` (wall) and
`asyncio.get_event_loop().time()` (the event loop's monotonic clock). -/
structure Clock where
  wall : Int
  mono : Int
deriving DecidableEq

/-- State of the single-client session slot (`client_websocket`):
empty (`None`) or holding the one accepted connection. -/
inductive GateState
  | idle
  | connected (sid : Nat)
deriving DecidableEq

/-- Reply produced by `handle_websocket` for an incoming connection. -/
inductive ConnReply
  | acceptedReply
  | busyReply (closeText : String)
deriving DecidableEq

/-- Value of `aiohttp.WSMsgType.CLOSE`, the close code `log_server.py`
passes when rejecting a second connection. -/
def logServerBusyCloseCode : Nat := 8

/-- Value of `aiohttp.WSCloseCode.TRY_AGAIN_LATER`, the close code
`websocket_log_server.py` passes when rejecting a second connection. -/
def wsBusyCloseCode : Nat := 1013

/-- Connection handshake of `handle_websocket`: reject with the busy close
signal when a client is already connected, otherwise store the new one. -/
def handleConnect : GateState → Nat → GateState × ConnReply
  | GateState.idle, sid => (GateState.connected sid, ConnReply.acceptedReply)
  | GateState.connected s, _ => (GateState.connected s, ConnReply.busyReply "Server busy")

/-- Events that touch the `client_websocket` slot: an inbound connection
attempt, the disconnect of the current client (the `finally` block sets
the slot to `None`), and a send whose transport write succeeds or fails. -/
inductive GateEvent
  | connectEv (sid : Nat)
  | disconnectEv
  | sendEv (ok : Bool)
deriving DecidableEq

/-- State transition of the session slot for each event.  A failed send is
handled by `send_message`'s `except` clause, which clears the slot. -/
def gateStep : GateState → GateEvent → GateState
  | st, GateEvent.connectEv sid => (handleConnect st sid).1
  | _, GateEvent.disconnectEv => GateState.idle
  | GateState.idle, GateEvent.sendEv _ => GateState.idle
  | GateState.connected s, GateEvent.sendEv ok =>
    if ok then GateState.connected s else GateState.idle

/-- Message built by `send_message` before the attribute keys are added. -/
def makeMessage (t : MsgType) (d : List Nat) (ts : Int) : Message :=
  { mtype := t, data := d, timestamp := ts }

/-- Model of `LogFileWebSocketServer.send_message` (`log_server.py`):
return silently when no client is connected; otherwise build the message
with `asyncio.get_event_loop().time()` as timestamp and attempt the send,
clearing the slot on failure instead of raising. -/
def logServerSendMessage (clk : Clock) (st : GateState) (t : MsgType) (d : List Nat)
    (ok : Bool) : GateState × Option Message :=
  match st with
  | GateState.idle => (GateState.idle, none)
  | GateState.connected s =>
    if ok then (GateState.connected s, some (makeMessage t d clk.mono))
    else (GateState.idle, none)

/-- Model of `NextflowLogServer.send_message` (`websocket_log_server.py`):
identical to the `log_server.py` variant except that the timestamp is
`time.time()`, the wall clock. -/
def wsSendMessage (clk : Clock) (st : GateState) (t : MsgType) (d : List Nat)
    (ok : Bool) : GateState × Option Message :=
  match st with
  | GateState.idle => (GateState.idle, none)
  | GateState.connected s =>
    if ok then (GateState.connected s, some (makeMessage t d clk.wall))
    else (GateState.idle, none)

/-! ## Sentinel (exit-code file) resolution

The sentinel input of one poll is `Option (Option String)`: `none` when
the file does not exist, `some none` when it exists but reading raises
`IOError`, `some (some s)` when reading yields the text `s`. -/

/-- Exit-code resolution of `LogFileWebSocketServer.watch_exit_code_file`
(`log_server.py` lines 140-147): `int(f.read().strip())`, defaulting to 0
on `ValueError` or `IOError` (a warning is logged, nothing is raised). -/
def watchResolve (contents : Option String) : Int :=
  match contents with
  | none => 0
  | some s => (pyInt s).getD 0

/-- Exit-code resolution of `NextflowLogServer.stream_logs`
(`websocket_log_server.py` lines 193-200): `int(exit_f.read().strip())`,
defaulting to 1 on `ValueError` or `IOError` (a warning is logged,
nothing is raised). -/
def streamResolve (contents : Option String) : Int :=
  match contents with
  | none => 1
  | some s => (pyInt s).getD 1

/-! ## The `log_server.py` tail loop and exit-code watcher -/

/-- Mutable state shared by `tail_log_file` and `watch_exit_code_file`:
the `self.running` flag, whether a client is connected
(`client_websocket is not None`), the latched `self.exit_code`, the file
object's read offset and the `line_count` counter. -/
structure TailState where
  running : Bool
  client : Bool
  exitCode : Option Int
  pos : Nat
  lineCount : Nat
deriving DecidableEq

/-- Events emitted by one iteration of the tail loop: an output line
payload, or the final completion status carrying `lines_sent` and, when
resolved, `exit_code`. -/
inductive TailEvent
  | outputLine (payload : List Nat)
  | completedEv (lineCount : Nat) (exitCode : Option Int)
deriving DecidableEq

/-- One iteration of the `tail_log_file` loop of `log_server.py`
(lines 174-213) against the current file `content`.  Returns the new
state, the event sent through `send_message` (if any), and whether the
loop has finished.  When `self.running` is false the `while` test fails
and the code after the loop sends the completion status; when a line is
read it is stripped and emitted; on no data the loop stops if the client
is gone (then also sending the completion status), otherwise it sleeps
and runs the truncation check, resetting the offset to 0 when the read
position exceeds the file size. -/
def tailIter (content : List Nat) (st : TailState) :
    TailState × Option TailEvent × Bool :=
  if st.running then
    let line := readlineFrom content st.pos
    if line ≠ [] then
      ({ st with pos := st.pos + line.length, lineCount := st.lineCount + 1 },
        some (TailEvent.outputLine (rstripNlCr line)), false)
    else if st.client then
      let newPos := if content.length < st.pos then 0 else st.pos
      ({ st with pos := newPos }, none, false)
    else
      (st, some (TailEvent.completedEv st.lineCount st.exitCode), true)
  else
    (st, some (TailEvent.completedEv st.lineCount st.exitCode), true)

/-- One poll of `watch_exit_code_file` (`log_server.py` lines 119-155).
The sentinel input is `none` while the file does not exist (the watcher
keeps sleeping); once it exists (`some contents`), the watcher returns if
`running` is already false, otherwise it resolves the exit code via
`watchResolve` and clears `self.running`. -/
def watchStep (sentinel : Option (Option String)) (st : TailState) : TailState :=
  match sentinel with
  | none => st
  | some contents =>
    if st.running then
      { st with exitCode := some (watchResolve contents), running := false }
    else st

/-- JSON message corresponding to a tail-loop event in `log_server.py`:
output lines become `output` messages, completion becomes a `status`
message with `status="completed"`, `lines_sent`, and `exit_code` only
when it was resolved; timestamps come from the event loop clock. -/
def tailEventMessage (clk : Clock) : TailEvent → Message
  | TailEvent.outputLine p => makeMessage MsgType.output p clk.mono
  | TailEvent.completedEv n (some c) =>
    { mtype := MsgType.statusMsg, data := [], timestamp := clk.mono,
      statusVal := some "completed", exitCode := some c, linesSent := some n }
  | TailEvent.completedEv n none =>
    { mtype := MsgType.statusMsg, data := [], timestamp := clk.mono,
      statusVal := some "completed", exitCode := none, linesSent := some n }

/-! ## The `websocket_log_server.py` stream loop -/

/-- State of the `stream_logs` loop: the latched `self.exit_code` and the
tracked file `position`. -/
structure StreamState where
  exitCode : Option Int
  position : Nat
deriving DecidableEq

/-- Events emitted by one iteration of `stream_logs`: an output chunk, or
the completion status carrying the exit code. -/
inductive StreamEvent
  | outputChunk (payload : List Nat)
  | completedEv (exitCode : Int)
deriving DecidableEq

/-- Exit-code check at the top of each `stream_logs` iteration
(`websocket_log_server.py` lines 193-200): resolve only when the sentinel
file exists and `self.exit_code` is still `None`. -/
def streamCheckExit (sentinel : Option (Option String)) (st : StreamState) : StreamState :=
  match sentinel, st.exitCode with
  | some contents, none => { st with exitCode := some (streamResolve contents) }
  | _, _ => st

/-- One iteration of the `stream_logs` loop (`websocket_log_server.py`
lines 191-225) against the current file `content`: check the sentinel,
read up to 4096 bytes at `position`; data advances the position and is
emitted; with no data the loop completes when the exit code is resolved,
and otherwise sleeps.  There is no truncation check in this loop. -/
def streamIter (content : List Nat) (sentinel : Option (Option String))
    (st : StreamState) : StreamState × Option StreamEvent × Bool :=
  let st1 := streamCheckExit sentinel st
  let data := (content.drop st1.position).take 4096
  if data ≠ [] then
    ({ st1 with position := st1.position + data.length },
      some (StreamEvent.outputChunk data), false)
  else
    match st1.exitCode with
    | some c => (st1, some (StreamEvent.completedEv c), true)
    | none => (st1, none, false)

/-- JSON message corresponding to a stream-loop event in
`websocket_log_server.py`; timestamps come from the wall clock. -/
def streamEventMessage (clk : Clock) : StreamEvent → Message
  | StreamEvent.outputChunk p => makeMessage MsgType.output p clk.wall
  | StreamEvent.completedEv c =>
    { mtype := MsgType.statusMsg, data := [], timestamp := clk.wall,
      statusVal := some "completed", exitCode := some c, linesSent := none }

/-- Run of the `stream_logs` loop for `n` iterations while the sentinel
file never exists, returning the final state and whether the loop has
completed. -/
def streamRunAbsent (content : List Nat) (st : StreamState) : Nat → StreamState × Bool
  | 0 => (st, false)
  | n + 1 =>
    let r := streamIter content none st
    if r.2.2 then (r.1, true) else streamRunAbsent content r.1 n

/-- Run of the `tail_log_file` loop for `n` iterations while the sentinel
file never exists: `watch_exit_code_file` then never leaves its polling
loop (`watchStep none` is the identity), so only `tailIter` acts. -/
def tailRunAbsent (content : List Nat) (st : TailState) : Nat → TailState × Bool
  | 0 => (st, false)
  | n + 1 =>
    let r := tailIter content st
    if r.2.2 then (r.1, true) else tailRunAbsent content r.1 n

/-! ## `pty_wrapper.py` and `nextflow_runner.py` exit statuses -/

/-- Outcome of the `pty.spawn` call (or of opening the output file) inside
`pty_wrapper.py`'s `main`: the spawned command terminated and `pty.spawn`
returned a raw wait status, the output file's directory was missing, the
command was not found, the command was not executable, or some other
exception was raised. -/
inductive SpawnOutcome
  | spawned (waitStatus : Nat)
  | outputFileMissing
  | commandNotFound
  | notExecutable
  | otherFailure
deriving DecidableEq

/-- Return value of `pty_wrapper.py`'s `main` (lines 37-80): the value
returned by `pty.spawn` in the normal case, 127 for `FileNotFoundError`
(both the missing-output-directory and command-not-found messages), 126
for `PermissionError`, 1 for any other exception. -/
def ptyWrapperMain : SpawnOutcome → Nat
  | SpawnOutcome.spawned st => st
  | SpawnOutcome.outputFileMissing => 127
  | SpawnOutcome.commandNotFound => 127
  | SpawnOutcome.notExecutable => 126
  | SpawnOutcome.otherFailure => 1

/-- Raw `os.waitpid` status for a child that terminated normally with the
given exit code: the code is carried in the high byte (code << 8).  Per
the Python documentation, `pty.spawn` returns this status value. -/
def waitStatusOfExit (code : Nat) : Nat := code * 256

/-- Process exit status observed by the parent of a Python process that
called `sys.exit(n)` with a non-negative integer: POSIX keeps the low
eight bits. -/
def osExitStatus (n : Nat) : Nat := n % 256

/-- Exit status of the `pty_wrapper.py` process: `sys.exit(main())`. -/
def ptyWrapperProcessExit (o : SpawnOutcome) : Nat := osExitStatus (ptyWrapperMain o)

/-- Exit status of the `nextflow_runner.py` process (lines 126-142):
`run_with_pty` returns `process.wait()`, the true exit code, and `main`
passes it to `sys.exit` after writing it to the sentinel file. -/
def nextflowRunnerProcessExit (code : Nat) : Nat := osExitStatus code

/-! ## Invariant helper lemmas -/

/-- While the sentinel file does not exist, one `stream_logs` iteration
neither resolves an exit code nor completes. -/
theorem streamIter_absent_inv (content : List Nat) (st : StreamState)
    (h : st.exitCode = none) :
    (streamIter content none st).1.exitCode = none
    ∧ (streamIter content none st).2.2 = false := by
  have hc : streamCheckExit none st = st := rfl
  by_cases hd : (content.drop st.position).take 4096 = []
  · simp [streamIter, hc, hd, h]
  · simp [streamIter, hc, hd, h]

/-- While `self.running` is true and a client is connected, one
`tail_log_file` iteration leaves both flags alone and does not finish. -/
theorem tailIter_active_inv (content : List Nat) (st : TailState)
    (h1 : st.running = true) (h2 : st.client = true) :
    (tailIter content st).1.running = true
    ∧ (tailIter content st).1.client = true
    ∧ (tailIter content st).2.2 = false := by
  by_cases hl : readlineFrom content st.pos = []
  · simp [tailIter, h1, h2, hl]
  · simp [tailIter, h1, h2, hl]

/-! ## Claims -/

/-- Claim C1: over a run that drains the tailed file, the concatenation of
all Output payloads equals the file's final contents — exactly, at the
byte level (before the lossy UTF-8 decoding), for the 4096-byte-chunk
reader of `websocket_log_server.py`; and up to the per-line trailing
newline/carriage-return stripping for the line reader of `log_server.py`,
whose emitted payloads are exactly the stripped raw lines and whose raw
lines concatenate back to the file contents. -/
theorem c1_output_concat :
    ∀ (content : List Nat),
      (chunksFrom content 0).flatten = content
      ∧ tailEmitAll content 0 = (linesFromRaw content 0).map rstripNlCr
      ∧ (linesFromRaw content 0).flatten = content := by
  intro content
  refine ⟨?_, tailEmitAll_eq_map content 0, ?_⟩
  · simpa using chunksFrom_flatten content 0
  · simpa using linesFromRaw_flatten content 0

/-- Claim C2, counterexample: the claim says every file-tail relay
defaults the exit code to 0 on a sentinel parse failure, but
`websocket_log_server.py` defaults it to 1, so its final completed Status
message carries `exit_code` 1, not 0. -/
theorem c2_counterexample :
    streamResolve (some "not-a-number") = 1
  ∧ streamIter [] (some (some "not-a-number")) { exitCode := none, position := 0 }
      = ({ exitCode := some 1, position := 0 }, some (StreamEvent.completedEv 1), true)
  ∧ (1 : Int) ≠ 0 := by
  refine ⟨by decide, by decide, by decide⟩

/-- Claim C2 (amended): a sentinel parse failure or read error is
non-fatal in both relays; `log_server.py` defaults the exit code to 0 (so
its final completed Status carries `exit_code` 0), while
`websocket_log_server.py` defaults it to 1. -/
theorem c2_sentinel_defaults :
    watchResolve (some "not-a-number") = 0
  ∧ watchResolve none = 0
  ∧ streamResolve (some "not-a-number") = 1
  ∧ streamResolve none = 1
  ∧ tailIter [] ⟨false, true, some (watchResolve (some "not-a-number")), 0, 4⟩
      = ({ running := false, client := true, exitCode := some 0, pos := 0, lineCount := 4 },
         some (TailEvent.completedEv 4 (some 0)), true)
  ∧ (∀ (clk : Clock) (n : Nat),
      (tailEventMessage clk (TailEvent.completedEv n (some 0))).exitCode = some 0
      ∧ (tailEventMessage clk (TailEvent.completedEv n (some 0))).statusVal
          = some "completed") := by
  refine ⟨by decide, rfl, by decide, rfl, by decide, fun clk n => ⟨rfl, rfl⟩⟩

/-- Claim C3: the claim (and the code's own comment) says `pty_wrapper.py`
propagates the watched command's exit code, but `pty.spawn` returns the
raw `os.waitpid` status (exit code shifted left by 8), which `main`
passes unchanged to `sys.exit`; for a command exiting with code 7 the
wrapper's own process exit status is 1792 mod 256 = 0.  The 127/126
handler mapping and the `nextflow_runner.py` propagation do hold. -/
theorem c3_waitstatus_bug :
    ptyWrapperProcessExit (SpawnOutcome.spawned (waitStatusOfExit 7)) = 0
  ∧ (0 : Nat) ≠ 7
  ∧ ptyWrapperProcessExit SpawnOutcome.commandNotFound = 127
  ∧ ptyWrapperProcessExit SpawnOutcome.notExecutable = 126
  ∧ nextflowRunnerProcessExit 7 = 7 := by decide

/-- Claim C4, counterexample: the claim says the reader resets its cursor
to 0 when the read position exceeds the file size, but the
`websocket_log_server.py` stream loop has no truncation check: with the
file truncated to empty and the cursor at 10, an iteration leaves the
cursor at 10, not 0. -/
theorem c4_counterexample :
    streamIter [] none { exitCode := none, position := 10 }
      = ({ exitCode := none, position := 10 }, none, false)
  ∧ (10 : Nat) ≠ 0 := by
  refine ⟨by decide, by decide⟩

/-- Claim C4 (amended): when the tailed file is truncated below the read
position, the `log_server.py` tail reader detects it on the no-data
branch and resets its cursor to 0, resuming from the new file start; the
`websocket_log_server.py` stream reader performs no truncation check and
keeps its cursor unchanged.  Neither crashes, and offsets are natural
numbers, never negative. -/
theorem c4_truncation_amended :
    (∀ (content : List Nat) (st : TailState), st.running = true → st.client = true →
      content.length < st.pos →
      tailIter content st = ({ st with pos := 0 }, none, false))
  ∧ (∀ (content : List Nat) (st : StreamState), st.exitCode = none →
      content.length < st.position →
      streamIter content none st = (st, none, false)) := by
  constructor
  · intro content st h1 h2 h3
    have hl : readlineFrom content st.pos = [] :=
      (readlineFrom_eq_nil_iff content st.pos).mpr
        (List.drop_eq_nil_of_le (Nat.le_of_lt h3))
    simp [tailIter, h1, h2, hl, h3]
  · intro content st h1 h2
    have hd : (content.drop st.position).take 4096 = [] := by
      rw [List.drop_eq_nil_of_le (Nat.le_of_lt h2)]
      rfl
    have hc : streamCheckExit none st = st := rfl
    simp [streamIter, hc, hd, h1]

/-- Claim C4 witness: concrete truncation (file now empty, cursor at 3):
the `log_server.py` reader resets to 0, the `websocket_log_server.py`
reader stays at 3. -/
theorem c4_truncation_witness :
    tailIter [] { running := true, client := true, exitCode := none, pos := 3, lineCount := 0 }
      = ({ running := true, client := true, exitCode := none, pos := 0, lineCount := 0 },
         none, false)
  ∧ streamIter [] none { exitCode := none, position := 3 }
      = ({ exitCode := none, position := 3 }, none, false) :=
  ⟨c4_truncation_amended.1 [] ⟨true, true, none, 3, 0⟩ rfl rfl (by decide),
   c4_truncation_amended.2 [] ⟨none, 3⟩ rfl (by decide)⟩

/-- Claim C5: a connection attempt while a session is admitted is rejected
with the distinct "Server busy" close signal, never admitted, and never
replaces the current session; an idle gate admits the first connection;
and the only transitions from Admitted back to Idle are the disconnect of
the admitted session and a failed send (which `send_message` treats as an
implicit disconnect by clearing the slot). -/
theorem c5_session_gate :
    (∀ (s sid : Nat), handleConnect (GateState.connected s) sid
        = (GateState.connected s, ConnReply.busyReply "Server busy"))
  ∧ (∀ (sid : Nat), handleConnect GateState.idle sid
        = (GateState.connected sid, ConnReply.acceptedReply))
  ∧ (∀ (s : Nat) (e : GateEvent), gateStep (GateState.connected s) e = GateState.idle →
        e = GateEvent.disconnectEv ∨ e = GateEvent.sendEv false) := by
  refine ⟨fun s sid => rfl, fun sid => rfl, ?_⟩
  intro s e h
  cases e with
  | connectEv sid => exact absurd h (by simp [gateStep, handleConnect])
  | disconnectEv => exact Or.inl rfl
  | sendEv ok =>
    cases ok with
    | false => exact Or.inr rfl
    | true => exact absurd h (by simp [gateStep])

/-- Claim C5 witness: with session 1 admitted, the connection attempt of
client 2 is rejected busy and the state is unchanged; a disconnect event
(which does send the gate to Idle) is classified as a disconnect. -/
theorem c5_session_gate_witness :
    handleConnect (GateState.connected 1) 2
      = (GateState.connected 1, ConnReply.busyReply "Server busy")
  ∧ (GateEvent.disconnectEv = GateEvent.disconnectEv
      ∨ GateEvent.disconnectEv = GateEvent.sendEv false) :=
  ⟨c5_session_gate.1 1 2, c5_session_gate.2.2 0 GateEvent.disconnectEv rfl⟩

/-- Claim C6: in both servers, `send_message` with no admitted session
returns silently without building or sending anything (no error), and a
send failure while a session is admitted clears the session slot
(transition to Idle) instead of propagating the failure — the model is a
total function, mirroring the `except` clause that only logs. -/
theorem c6_send_noop_and_drop :
    ∀ (clk : Clock) (t : MsgType) (d : List Nat) (ok : Bool) (s : Nat),
      logServerSendMessage clk GateState.idle t d ok = (GateState.idle, none)
      ∧ wsSendMessage clk GateState.idle t d ok = (GateState.idle, none)
      ∧ logServerSendMessage clk (GateState.connected s) t d false = (GateState.idle, none)
      ∧ wsSendMessage clk (GateState.connected s) t d false = (GateState.idle, none) := by
  intro clk t d ok s
  exact ⟨rfl, rfl, rfl, rfl⟩

/-- Claim C7: with sentinel contents "7", `log_server.py`'s watcher
resolves exit code 7 and the next tail iteration finishes with the
completed status carrying it; `websocket_log_server.py` resolves 7 and,
at end of data, emits the completed status with it; and the resulting
JSON Status messages carry `exit_code` 7 (and `status` "completed"). -/
theorem c7_sentinel_seven :
    watchResolve (some "7") = 7
  ∧ streamIter [] (some (some "7")) { exitCode := none, position := 0 }
      = ({ exitCode := some 7, position := 0 }, some (StreamEvent.completedEv 7), true)
  ∧ tailIter [] (watchStep (some (some "7"))
        { running := true, client := true, exitCode := none, pos := 0, lineCount := 3 })
      = ({ running := false, client := true, exitCode := some 7, pos := 0, lineCount := 3 },
         some (TailEvent.completedEv 3 (some 7)), true)
  ∧ (∀ (clk : Clock) (n : Nat),
      (tailEventMessage clk (TailEvent.completedEv n (some 7))).exitCode = some 7
      ∧ (streamEventMessage clk (StreamEvent.completedEv 7)).exitCode = some 7
      ∧ (tailEventMessage clk (TailEvent.completedEv n (some 7))).statusVal
          = some "completed") := by
  refine ⟨by decide, by decide, by decide, fun clk n => ⟨rfl, rfl, rfl⟩⟩

/-- Claim C8, counterexample: the claim says that with the sentinel never
created the run still terminates in Completed with exit code 0; but with
the two-byte file fully read and the sentinel absent, one iteration of
either loop returns its state unchanged without completing — both loops
are at a non-completed fixpoint and poll forever. -/
theorem c8_counterexample :
    streamIter [104, 105] none { exitCode := none, position := 2 }
      = ({ exitCode := none, position := 2 }, none, false)
  ∧ tailIter [104, 105]
      { running := true, client := true, exitCode := none, pos := 2, lineCount := 1 }
      = ({ running := true, client := true, exitCode := none, pos := 2, lineCount := 1 },
         none, false) := by
  refine ⟨by decide, by decide⟩

/-- Claim C8 (amended): if the sentinel file is never created, the run
never reaches Completed on its own: for any file contents and any number
of iterations, the `websocket_log_server.py` stream loop (with no exit
code resolved) and the `log_server.py` tail loop (still running, client
connected) keep polling without completing; no exit code is ever
resolved.  The default of 0 in `start_server` applies only if completion
is reached by other means. -/
theorem c8_no_sentinel_amended :
    (∀ (content : List Nat) (st : StreamState) (n : Nat), st.exitCode = none →
      (streamRunAbsent content st n).2 = false)
  ∧ (∀ (content : List Nat) (st : TailState) (n : Nat),
      st.running = true → st.client = true → (tailRunAbsent content st n).2 = false) := by
  constructor
  · intro content st n
    induction n generalizing st with
    | zero => intro _; rfl
    | succ n ih =>
      intro h
      have hi := streamIter_absent_inv content st h
      rw [streamRunAbsent]
      simp only [hi.2, if_false]
      exact ih _ hi.1
  · intro content st n
    induction n generalizing st with
    | zero => intro _ _; rfl
    | succ n ih =>
      intro h1 h2
      have hi := tailIter_active_inv content st h1 h2
      rw [tailRunAbsent]
      simp only [hi.2.2, if_false]
      exact ih _ hi.1 hi.2.1

/-- Claim C8 witness: three iterations on a fully-read two-byte file with
the sentinel absent complete neither loop. -/
theorem c8_no_sentinel_witness :
    (streamRunAbsent [104, 105] { exitCode := none, position := 2 } 3).2 = false
  ∧ (tailRunAbsent [104, 105]
      { running := true, client := true, exitCode := none, pos := 2, lineCount := 1 } 3).2
      = false :=
  ⟨c8_no_sentinel_amended.1 [104, 105] ⟨none, 2⟩ 3 rfl,
   c8_no_sentinel_amended.2 [104, 105] ⟨true, true, none, 2, 1⟩ 3 rfl rfl⟩

/-- Claim C9, counterexample: the claim says the message timestamp is the
wall-clock time at creation, but `log_server.py`'s `send_message` uses
`asyncio.get_event_loop().time()`, the loop's monotonic clock: with wall
clock 1000 and monotonic clock 5, the forwarded message carries
timestamp 5, not 1000. -/
theorem c9_counterexample :
    (logServerSendMessage { wall := 1000, mono := 5 } (GateState.connected 0)
        MsgType.output [] true).2
      = some (makeMessage MsgType.output [] 5)
  ∧ (5 : Int) ≠ 1000 := by
  refine ⟨rfl, by decide⟩

/-- Claim C9 (amended): both relays build the message with a timestamp
taken at creation and forward exactly that message to the session slot;
the timestamp is the wall clock (`time.time()`) in
`websocket_log_server.py` but the event loop's monotonic clock
(`loop.time()`) in `log_server.py`. -/
theorem c9_timestamp_amended :
    ∀ (clk : Clock) (s : Nat) (t : MsgType) (d : List Nat),
      (wsSendMessage clk (GateState.connected s) t d true).2
        = some (makeMessage t d clk.wall)
      ∧ (logServerSendMessage clk (GateState.connected s) t d true).2
        = some (makeMessage t d clk.mono) := by
  intro clk s t d
  exact ⟨rfl, rfl⟩

/-- Claim C10: once `watch_exit_code_file` sees the sentinel while
`self.running` is true, it latches the resolved exit code and clears
`running`; the next `tail_log_file` iteration then finishes immediately —
emitting the completed Status with `lines_sent` and the exit code, and no
Output message — regardless of the file contents, so unread bytes are
never drained. -/
theorem c10_stop_on_resolve :
    ∀ (content : List Nat) (st : TailState) (contents : Option String),
      st.running = true →
      (watchStep (some contents) st).running = false
      ∧ (watchStep (some contents) st).exitCode = some (watchResolve contents)
      ∧ tailIter content (watchStep (some contents) st)
          = (watchStep (some contents) st,
             some (TailEvent.completedEv st.lineCount (some (watchResolve contents))), true) := by
  intro content st contents h
  refine ⟨by simp [watchStep, h], by simp [watchStep, h], ?_⟩
  simp [watchStep, tailIter, h]

/-- Claim C10 witness: sentinel "7" resolved with two lines already sent
and two unread lines remaining in the file — the next tail iteration
emits only the completed status with `lines_sent` 2 and `exit_code` 7. -/
theorem c10_stop_on_resolve_witness :
    (watchStep (some (some "7"))
        { running := true, client := true, exitCode := none, pos := 0, lineCount := 2 }).running
      = false
  ∧ (watchStep (some (some "7"))
        { running := true, client := true, exitCode := none, pos := 0, lineCount := 2 }).exitCode
      = some (watchResolve (some "7"))
  ∧ tailIter [104, 10, 105, 10]
        (watchStep (some (some "7"))
          { running := true, client := true, exitCode := none, pos := 0, lineCount := 2 })
      = (watchStep (some (some "7"))
          { running := true, client := true, exitCode := none, pos := 0, lineCount := 2 },
         some (TailEvent.completedEv 2 (some (watchResolve (some "7")))), true) :=
  c10_stop_on_resolve [104, 10, 105, 10] ⟨true, true, none, 0, 2⟩ (some "7") rfl
